import Mathlib

/-!
Shallow embedding of the `fkbutils` data-access adapters
(`fkbutils/dbwrapper/mongo.py`, `redis.py`, `postgres.py`) and proofs about
the claims of the specification.  Python values are modelled by `PyVal`,
backend states by explicit state records, and fallible code by `Except`.
-/

/-- Model of the Python values that flow through the adapters: `None`,
booleans, integers, strings, lists, tuples, string-keyed dicts and the
float NaN sentinel (only its identity matters to the code). -/
inductive PyVal where
  | none : PyVal
  | bool (b : Bool) : PyVal
  | int (n : Int) : PyVal
  | str (s : String) : PyVal
  | list (xs : List PyVal) : PyVal
  | tup (xs : List PyVal) : PyVal
  | dict (kvs : List (String × PyVal)) : PyVal
  | nan : PyVal

/-- Model of Python `str.lower()` (character-wise ASCII lowering, which is
all the adapters compare against). -/
def pyLower (s : String) : String :=
  String.mk (s.data.map Char.toLower)

/-- Python truthiness of a `PyVal` (`bool(v)`). -/
def pyTruthy : PyVal → Bool
  | PyVal.none => false
  | PyVal.bool b => b
  | PyVal.int n => n != 0
  | PyVal.str s => !(s.isEmpty)
  | PyVal.list xs => !(xs.isEmpty)
  | PyVal.tup xs => !(xs.isEmpty)
  | PyVal.dict kvs => !(kvs.isEmpty)
  | PyVal.nan => true

mutual
/-- Model of Python `json.dumps` with its default separators
(`", "` between items, `": "` after keys). -/
def dumps : PyVal → String
  | PyVal.none => "null"
  | PyVal.bool b => if b then "true" else "false"
  | PyVal.int n => toString n
  | PyVal.str s => "\x22" ++ s ++ "\x22"
  | PyVal.list xs => "[" ++ ", ".intercalate (dumpsList xs) ++ "]"
  | PyVal.tup xs => "[" ++ ", ".intercalate (dumpsList xs) ++ "]"
  | PyVal.dict kvs => "\x7b" ++ ", ".intercalate (dumpsKvs kvs) ++ "\x7d"
  | PyVal.nan => "NaN"

def dumpsList : List PyVal → List String
  | [] => []
  | x :: xs => dumps x :: dumpsList xs

def dumpsKvs : List (String × PyVal) → List String
  | [] => []
  | (k, v) :: kvs => ("\x22" ++ k ++ "\x22: " ++ dumps v) :: dumpsKvs kvs
end

/-! ## Document store adapter (`fkbutils/dbwrapper/mongo.py`)

A collection is modelled as an association list from the `_id` string to the
`payload` value: every document the adapter writes has the shape
`\x7b"_id": key, "payload": value\x7d`.  Namespace resolution through
`get_collection_from_kwargs` only selects which collection the operation
acts on; the operations below are stated over the resolved collection.
Fallible driver calls return `Except String`. -/

namespace MongoWrapper

/-- A mongo collection: association list from document `_id` to the stored
`payload` field. -/
abbrev Collection := List (String × PyVal)

/-- Model of `collection.find_one(\x7b"_id": key\x7d)`: the stored payload of
the first document whose `_id` equals `key`, if any. -/
def find_one (key : String) (col : Collection) : Option PyVal :=
  match col.find? (fun kv => kv.1 == key) with
  | Option.none => Option.none
  | Option.some kv => Option.some kv.2

/-- Model of `collection.insert_one(\x7b"_id": key, "payload": value\x7d)`:
fails with `DuplicateKeyError` when a document with this `_id` exists,
otherwise adds the document. -/
def insert_one (key : String) (value : PyVal) (col : Collection) :
    Except String Collection :=
  match find_one key col with
  | Option.some _ => Except.error "DuplicateKeyError"
  | Option.none => Except.ok (col ++ [(key, value)])

/-- Model of `collection.update_one(\x7b"_id": key\x7d, \x7b"$set":
\x7b"payload": value\x7d\x7d)`: replaces the payload of the matching
document; matches nothing (and changes nothing) when the key is absent. -/
def update_one (key : String) (value : PyVal) (col : Collection) : Collection :=
  col.map (fun kv => if kv.1 == key then (kv.1, value) else kv)

/-- Embedding of `MongoWrapper._upsert` (mongo.py:116-134): look the key
up; if absent, try `insert_one` and fall back to
`update_one` on `DuplicateKeyError`; if present, call `insert_one`
(which raises `DuplicateKeyError`, uncaught in this branch). -/
def upsert (key : String) (value : PyVal) (col : Collection) :
    Except String Collection :=
  match find_one key col with
  | Option.none =>
      match insert_one key value col with
      | Except.error _ => Except.ok (update_one key value col)
      | Except.ok col2 => Except.ok col2
  | Option.some _ => insert_one key value col

/-- Embedding of `MongoWrapper.set` (mongo.py:61-71): delegates to
`_upsert`. -/
def set (key : String) (value : PyVal) (col : Collection) :
    Except String Collection :=
  upsert key value col

/-- Embedding of `MongoWrapper._get_by_id` (mongo.py:101-114): `find_one`
and project the `payload` field, `None` when absent. -/
def _get_by_id (key : String) (col : Collection) : Option PyVal :=
  find_one key col

/-- Embedding of `MongoWrapper.get` (mongo.py:73-82): `_get_by_id`, raising
`KeyError` when the result is `None`. -/
def get (key : String) (col : Collection) : Except String PyVal :=
  match _get_by_id key col with
  | Option.none => Except.error "KeyError"
  | Option.some v => Except.ok v

/-- Embedding of `MongoWrapper.exists` (mongo.py:84-89); the source name is
a Lean keyword, hence the trailing underscore.  The function body consists
solely of the docstring, so the call returns Python `None`
unconditionally. -/
def exists_ (key : String) (col : Collection) : PyVal :=
  let _key := key
  let _col := col
  PyVal.none

/-- Embedding of `MongoWrapper.delete` (mongo.py:91-99):
`collection.delete_one(\x7b"_id": key\x7d)`, removing the first matching
document (no-op when absent). -/
def delete (key : String) (col : Collection) : Collection :=
  match col.find? (fun kv => kv.1 == key) with
  | Option.none => col
  | Option.some _ => col.eraseP (fun kv => kv.1 == key)

end MongoWrapper

/-! ## Queue and pub/sub adapter (`fkbutils/dbwrapper/redis.py`)

The redis server state relevant to the queue operations is a map from list
key to the list of stored string entries.  `rpush` appends at the tail,
`blpop` removes at the head and returns a `(key, value)` pair, or `None`
once the timeout elapses on an empty list. -/

namespace RedisWrapper

/-- Redis server state: every list key holds a list of string entries
(head first). -/
structure RedisState where
  queues : String → List String

/-- Replace the entries stored under one key. -/
def RedisState.setQueue (st : RedisState) (key : String) (entries : List String) :
    RedisState :=
  ⟨fun k => if k == key then entries else st.queues k⟩

/-- Embedding of `RedisWrapper.put_on_queue` (redis.py:35-43):
`rpush("queue:" + queue, json.dumps(value))`. -/
def put_on_queue (queue : String) (value : PyVal) (st : RedisState) : RedisState :=
  let key := "queue:" ++ queue
  st.setQueue key (st.queues key ++ [dumps value])

/-- Embedding of `RedisWrapper.length_of_queue` (redis.py:45-52): the body
evaluates `self.conn.llen("queue:" + queue)` but contains no `return`
statement, so the call returns Python `None`. -/
def length_of_queue (queue : String) (st : RedisState) : PyVal :=
  let _llen := (st.queues ("queue:" ++ queue)).length
  PyVal.none

/-- Embedding of `RedisWrapper.get_from_queue` (redis.py:54-64):
`blpop(["queue:" + queue], timeout)` returned verbatim.  `blpop` yields the
pair `(key, head entry)` when the list is non-empty, and `None` after the
timeout elapses on an empty list; the timeout only bounds the blocking
wait, so with a static state it does not affect the returned value. -/
def get_from_queue (queue : String) (timeout : Nat) (st : RedisState) :
    PyVal × RedisState :=
  let _timeout := timeout
  let key := "queue:" ++ queue
  match st.queues key with
  | [] => (PyVal.none, st)
  | e :: rest => (PyVal.tup [PyVal.str key, PyVal.str e], st.setQueue key rest)

/-- Result of the subscription polling loop of `_start_subscription`
(redis.py:201-218) on a finite observation trace: either the `while True`
loop hit a `break` after the given number of callback invocations, or the
trace was exhausted with the loop still running (carrying the invocation
count so far). -/
inductive LoopResult where
  | terminated (calls : Nat) : LoopResult
  | running (calls : Nat) : LoopResult

/-- Embedding of the `subscription_while_task` loop body of
`RedisWrapper._start_subscription` (redis.py:201-218), run over a finite
trace: `trace` lists, iteration by iteration, what `sub_object.get_message()`
returns, and `elapsed i` is the value of
`(datetime.datetime.now() - start).seconds` observed at iteration `i`.
Each iteration: on a (truthy) message, call the callback and `break` when it
returns `False`; then, when a timeout is set and the elapsed seconds exceed
it, `break`; otherwise sleep and loop.  `i` is the iteration index and
`calls` the number of callback invocations so far. -/
def subscriptionLoop (callback : PyVal → Bool) (timeout : Option Nat)
    (elapsed : Nat → Nat) : List (Option PyVal) → Nat → Nat → LoopResult
  | [], _, calls => LoopResult.running calls
  | msg :: rest, i, calls =>
      match msg with
      | Option.some m =>
          if callback m then
            afterMessage rest i (calls + 1)
          else
            LoopResult.terminated (calls + 1)
      | Option.none => afterMessage rest i calls
where
  /-- The timeout check at the bottom of the loop body (redis.py:213-216),
  followed by the next iteration. -/
  afterMessage (rest : List (Option PyVal)) (i calls : Nat) : LoopResult :=
    match timeout with
    | Option.some t =>
        if elapsed i > t then LoopResult.terminated calls
        else subscriptionLoop callback timeout elapsed rest (i + 1) calls
    | Option.none => subscriptionLoop callback timeout elapsed rest (i + 1) calls

end RedisWrapper

/-! ## Relational store adapter (`fkbutils/dbwrapper/postgres.py`)

Statements built through the `psycopg2.sql` module are modelled as lists of
parts: literal SQL text (`lit`), an identifier rendered through
`sql.Identifier` (`ident`), and a bound-parameter placeholder
(`sql.Placeholder`).  Text that Python string formatting interpolates
directly into a query string ends up inside a `lit` part; only `ident`
parts are identifier-quoted by the driver. -/

namespace PostgresWrapper

/-- One part of a composed SQL statement: literal text, an
identifier-quoted name (`sql.Identifier`), or a bound-parameter
placeholder (`sql.Placeholder`). -/
inductive SqlPart where
  | lit (s : String) : SqlPart
  | ident (s : String) : SqlPart
  | placeholder : SqlPart
  deriving DecidableEq, Repr

/-- A composed statement (`psycopg2.sql.Composed`): a sequence of parts. -/
abbrev Composed := List SqlPart

/-- Model of `sql.SQL(sep).join(items)`: the items interleaved with the
literal separator. -/
def sqlJoin (sep : String) (items : List Composed) : Composed :=
  (items.intersperse [SqlPart.lit sep]).flatten

/-- Split a character list at every `\x7b\x7d` hole, accumulating the
current literal piece in reverse. -/
def splitHolesAux : List Char → List Char → List String
  | [], acc => [String.mk acc.reverse]
  | '\x7b' :: '\x7d' :: rest, acc => String.mk acc.reverse :: splitHolesAux rest []
  | c :: rest, acc => splitHolesAux rest (c :: acc)

/-- The pieces of a format string around its `\x7b\x7d` holes. -/
def splitHoles (fmt : String) : List String :=
  splitHolesAux fmt.data []

/-- Interleave the pieces of a format string (split at the `\x7b\x7d`
holes) with the composed objects substituted for the holes, as
`sql.SQL(string).format(*objs)` does. -/
def interleaveFmt : List String → List Composed → Composed
  | [], _ => []
  | [s], _ => [SqlPart.lit s]
  | s :: rest, [] => SqlPart.lit s :: interleaveFmt rest []
  | s :: rest, o :: os => SqlPart.lit s :: (o ++ interleaveFmt rest os)

/-- Model of `sql.SQL(fmt).format(*objs)`. -/
def formatSql (fmt : String) (objs : List Composed) : Composed :=
  interleaveFmt (splitHoles fmt) objs

/-- Adapter state of a `PostgresWrapper` instance: the shared
`self.connect_args` list, the `self.args` option string computed at
construction, and the configured schema. -/
structure Wrapper where
  connect_args : List String
  args : String
  schema : Option String

/-- Embedding of `PostgresWrapper._get_full_args` (postgres.py:39-51).
The Python function appends the `-c search_path=...` option to the list
object passed in (an in-place mutation of the caller's list) and returns
the space-joined option string; the embedding returns the mutated list
alongside the joined string. -/
def _get_full_args (connect_args : List String) (schema : Option String) :
    List String × String :=
  let ca := match schema with
    | Option.some s => connect_args ++ ["-c search_path=" ++ s]
    | Option.none => connect_args
  (ca, " ".intercalate ca)

/-- Embedding of `PostgresWrapper.__init__` (postgres.py:12-37) restricted
to the option handling: `self.connect_args` is the caller's list (or a
fresh empty one) and `self.args` is produced by `_get_full_args`, whose
in-place append also lands in `self.connect_args`. -/
def init (schema : Option String) (connect_args : Option (List String)) : Wrapper :=
  let ca0 := connect_args.getD []
  let (ca, args) := _get_full_args ca0 schema
  ⟨ca, args, schema⟩

/-- Embedding of the option handling of `PostgresWrapper.get_query`
(postgres.py:145): `args = self._get_full_args(self.connect_args,
schema=schema) if schema is not None else self.args`.  When a schema
override is supplied, `_get_full_args` appends to the instance's shared
`self.connect_args` list in place; the returned wrapper carries the
mutated list.  The second component is the option string handed to
`psycopg2.connect`. -/
def get_query_options (w : Wrapper) (schema : Option String) :
    Wrapper × String :=
  match schema with
  | Option.some _ =>
      let (ca, args) := _get_full_args w.connect_args schema
      ({ w with connect_args := ca }, args)
  | Option.none => (w, w.args)

/-- Embedding of the query built by `PostgresWrapper.get_column_names`
(postgres.py:79): `"SELECT * from \x7b\x7d LIMIT 1;".format(table_name)` —
a plain Python string format, wrapped by `get_query` (postgres.py:146-147)
into `SQL(query)`, i.e. one literal part with the table name interpolated
into the text. -/
def get_column_names_query (table_name : String) : Composed :=
  [SqlPart.lit ("SELECT * from " ++ table_name ++ " LIMIT 1;")]

/-- An aggregation column spec for `get_table`: a dict with keys `column`,
`func` and optionally `new_name`. -/
structure AggCol where
  column : String
  func : String
  new_name : Option String

/-- The `columns` argument of `get_table`: a list of plain column names or
a list of aggregation dicts. -/
inductive Columns where
  | plain (cs : List String) : Columns
  | aggs (cs : List AggCol) : Columns

/-- A filter condition for `get_table`: a dict with keys `column`,
`condition` (the SQL operator) and `value`. -/
structure Cond where
  column : String
  condition : String
  value : PyVal

/-- An order-by entry for `get_table`: a dict with keys `column` and
`method`. -/
structure OrderBy where
  column : String
  method : String

/-- Embedding of `PostgresWrapper._assert_columns` (postgres.py:256-271):
with no grouping all columns must be plain strings, with grouping all must
be aggregation dicts (the dict-key checks are enforced by the `AggCol`
type here). -/
def assert_columns (columns : Option Columns) (group : Option (List String)) : Bool :=
  match columns, group with
  | Option.none, _ => true
  | Option.some (Columns.plain _), Option.none => true
  | Option.some (Columns.plain _), Option.some _ => false
  | Option.some (Columns.aggs _), Option.none => false
  | Option.some (Columns.aggs _), Option.some _ => true

/-- Embedding of `PostgresWrapper._assert_order_by` (postgres.py:273-285):
every entry's `method` must be `asc` or `desc` case-insensitively (the
key checks are enforced by the `OrderBy` type here). -/
def assert_order_by (order_by : Option (List OrderBy)) : Bool :=
  match order_by with
  | Option.none => true
  | Option.some obs =>
      obs.all (fun o => pyLower o.method == "asc" || pyLower o.method == "desc")

/-- Embedding of `PostgresWrapper._get_column_sql_string`
(postgres.py:223-254): returns the accumulated format string and the list
of `sql` objects for its holes.  The aggregation pieces interpolate the
aggregation function and the output name directly into the format string
and append only the aggregated column as an `Identifier`.  A plain column
list combined with grouping (and vice versa) would make the Python source
subscript a string like a dict; that mismatch is `_assert_columns`-rejected
in `get_table` and surfaces here as a `TypeError`. -/
def _get_column_sql_string (columns : Option Columns) (group : Option (List String)) :
    Except String (String × List Composed) :=
  match columns with
  | Option.none =>
      match group with
      | Option.none => Except.ok ("SELECT * ", [])
      | Option.some g =>
          Except.ok ("SELECT \x7b\x7d ", [sqlJoin "," (g.map (fun c => [SqlPart.ident c]))])
  | Option.some cspec =>
      match group, cspec with
      | Option.none, Columns.plain cs =>
          Except.ok ("SELECT \x7b\x7d", [sqlJoin "," (cs.map (fun c => [SqlPart.ident c]))])
      | Option.none, Columns.aggs _ => Except.error "TypeError"
      | Option.some _, Columns.plain _ => Except.error "TypeError"
      | Option.some g, Columns.aggs cs =>
          let pieces := cs.map (fun col =>
            let name := match col.new_name with
              | Option.none => col.func ++ "_" ++ col.column
              | Option.some n => n
            ", " ++ col.func ++ "(\x7b\x7d) AS " ++ name)
          Except.ok ("SELECT \x7b\x7d" ++ String.join pieces,
            [sqlJoin "," (g.map (fun c => [SqlPart.ident c]))]
              ++ cs.map (fun col => [SqlPart.ident col.column]))

/-- Embedding of `PostgresWrapper._get_where_condition`
(postgres.py:287-313): the `WHERE` format string interpolates each
condition's operator between two holes, the objects are the column
`Identifier` and a `Placeholder` per condition, and the values are the
condition values, an `IN` value being coerced to a tuple (a non-sequence
`IN` value raises `ValueError`). -/
def _get_where_condition (where_condition : Option (List Cond)) :
    Except String (String × List Composed × Option (List PyVal)) :=
  match where_condition with
  | Option.none => Except.ok ("", [], Option.none)
  | Option.some conds =>
      let string := " WHERE " ++
        " and ".intercalate (conds.map (fun c => "\x7b\x7d " ++ c.condition ++ " \x7b\x7d"))
      let objs := conds.flatMap (fun c => [[SqlPart.ident c.column], [SqlPart.placeholder]])
      let coerce : Cond → Except String PyVal := fun c =>
        if pyLower c.condition == "in" then
          match c.value with
          | PyVal.list xs => Except.ok (PyVal.tup xs)
          | PyVal.tup xs => Except.ok (PyVal.tup xs)
          | _ => Except.error "ValueError"
        else Except.ok c.value
      match conds.mapM coerce with
      | Except.error e => Except.error e
      | Except.ok vals => Except.ok (string, objs, Option.some vals)

/-- Embedding of `PostgresWrapper._get_order_by` (postgres.py:315-331):
the `ORDER BY` format string interpolates each entry's direction after a
hole, and the objects are the column `Identifier`s. -/
def _get_order_by (order_by : Option (List OrderBy)) : String × List Composed :=
  match order_by with
  | Option.none => ("", [])
  | Option.some obs =>
      (" ORDER BY " ++ ", ".intercalate (obs.map (fun o => "\x7b\x7d " ++ o.method)),
       obs.map (fun o => [SqlPart.ident o.column]))

/-- Embedding of the statement construction of `PostgresWrapper.get_table`
(postgres.py:85-131), up to `sql.SQL(string).format(*sql_objects)`:
assertions, SELECT clause, FROM clause, WHERE clause, GROUP BY clause,
ORDER BY clause, rejection of `table_joins`, and the final format.
Returns the composed statement and the bound values passed on to
`get_query`. -/
def get_table_stmt (table_name : String) (columns : Option Columns)
    (where_condition : Option (List Cond)) (group : Option (List String))
    (order_by : Option (List OrderBy)) (table_joins : Option (List PyVal)) :
    Except String (Composed × Option (List PyVal)) := do
  if !(assert_columns columns group) then throw "AssertionError"
  if !(assert_order_by order_by) then throw "AssertionError"
  let (string1, objs1) ← _get_column_sql_string columns group
  let string2 := string1 ++ " FROM \x7b\x7d"
  let objs2 := objs1 ++ [[SqlPart.ident table_name]]
  let (wstring, wobjs, values) ← _get_where_condition where_condition
  let string3 := string2 ++ wstring
  let objs3 := objs2 ++ wobjs
  let (string4, objs4) :=
    match group with
    | Option.some g =>
        (string3 ++ " GROUP BY \x7b\x7d",
         objs3 ++ [sqlJoin ", " (g.map (fun c => [SqlPart.ident c]))])
    | Option.none => (string3, objs3)
  let (ostring, oobjs) := _get_order_by order_by
  let string5 := string4 ++ ostring
  let objs5 := objs4 ++ oobjs
  if table_joins.isSome then throw "NotImplementedError"
  let string6 := string5 ++ ";"
  pure (formatSql string6 objs5, values)

end PostgresWrapper

namespace PostgresWrapper

/-- A pandas dataframe, restricted to what `insert_from_df` reads: the
column names (`list(data)`) and the rows (`data.values`). -/
structure DataFrame where
  cols : List String
  rows : List (List PyVal)

/-- The dynamic Python value held by the `update_cols` variable in
`insert_from_df`: the caller's list, or — after the `update_cols =
columns` default at postgres.py:208 — the pre-joined column string. -/
inductive PyStrList where
  | str (s : String) : PyStrList
  | list (l : List String) : PyStrList

/-- Python `len` of a `PyStrList`: character count of a string, element
count of a list. -/
def PyStrList.pyLen : PyStrList → Nat
  | PyStrList.str s => s.length
  | PyStrList.list l => l.length

/-- Python iteration over a `PyStrList`: the one-character strings of a
string, the elements of a list. -/
def PyStrList.pyIter : PyStrList → List String
  | PyStrList.str s => s.data.map Char.toString
  | PyStrList.list l => l

/-- Join `', '.join('"' + col + '"' for col in cols)`. -/
def joinQuoted (cols : List String) : String :=
  ", ".intercalate (cols.map (fun col => "\x22" ++ col ++ "\x22"))

/-- Embedding of the `insert_stmt` construction of
`PostgresWrapper.insert_from_df` (postgres.py:193-213): column list,
`%s` value placeholders, INSERT statement, and the `ON CONFLICT` clause.
With `on_conflict="do_update"` and `update_cols=None`, the source assigns
the pre-joined column *string* `columns` to `update_cols`
(postgres.py:207-208), so the subsequent `len` and iteration act on that
string's characters.  With `on_conflict="do_update"` and `id_cols=None`,
`', '.join(... for col in id_cols)` iterates `None`: `TypeError`. -/
def insert_stmt_str (df_cols : List String) (table_name : String)
    (on_conflict : Option String) (id_cols update_cols : Option (List String)) :
    Except String String :=
  let columns := joinQuoted df_cols
  let values := "VALUES(" ++ ",".intercalate (df_cols.map (fun _ => "%s")) ++ ")"
  let insert_stmt := "INSERT INTO " ++ table_name ++ " (" ++ columns ++ ") " ++ values
  if on_conflict == Option.some "do_nothing" then
    match id_cols with
    | Option.none => Except.ok (insert_stmt ++ " ON CONFLICT DO NOTHING")
    | Option.some ics =>
        Except.ok (insert_stmt ++ " ON CONFLICT (" ++ joinQuoted ics ++ ") DO NOTHING")
  else if on_conflict == Option.some "do_update" then
    let uc : PyStrList := match update_cols with
      | Option.none => PyStrList.str columns
      | Option.some l => PyStrList.list l
    match id_cols with
    | Option.none => Except.error "TypeError"
    | Option.some ics =>
        let setCols := ", ".intercalate (uc.pyIter.map (fun col => "\x22" ++ col ++ "\x22"))
        let exclCols :=
          ", ".intercalate (uc.pyIter.map (fun col => "EXCLUDED.\x22" ++ col ++ "\x22"))
        if uc.pyLen > 1 then
          Except.ok (insert_stmt ++ " ON CONFLICT(" ++ joinQuoted ics
            ++ ") DO UPDATE SET (" ++ setCols ++ ") = (" ++ exclCols ++ ")")
        else
          Except.ok (insert_stmt ++ " ON CONFLICT(" ++ joinQuoted ics
            ++ ") DO UPDATE SET " ++ setCols ++ " = " ++ exclCols)
  else
    Except.ok insert_stmt

/-- Committed database state: the rows of every table. -/
structure PgState where
  tables : String → List (List PyVal)

/-- Append rows to one table. -/
def PgState.insertRows (db : PgState) (table : String) (rows : List (List PyVal)) :
    PgState :=
  ⟨fun t => if t == table then db.tables t ++ rows else db.tables t⟩

/-- An open psycopg2 connection: the committed state it was opened on plus
the writes of the current (implicit) transaction, pending until a
commit. -/
structure PgConn where
  committed : PgState
  pending : List (String × List PyVal)

/-- Model of `execute_batch(cursor, insert_stmt, data.values, ...)` for a
successfully executing INSERT statement: the rows join the connection's
pending transaction.  Batching by `page_size` only splits the round
trips. -/
def PgConn.execute_batch_insert (conn : PgConn) (table : String)
    (rows : List (List PyVal)) : PgConn :=
  { conn with pending := conn.pending ++ rows.map (fun r => (table, r)) }

/-- Model of `conn.commit()`: the pending writes become committed. -/
def PgConn.commit (conn : PgConn) : PgConn :=
  ⟨conn.pending.foldl (fun db tr => db.insertRows tr.1 [tr.2]) conn.committed, []⟩

/-- Model of leaving `with psycopg2.connect(...) as conn:` without an
exception: per psycopg2's documented connection context-manager semantics,
the block's transaction is committed on successful exit (the connection
itself stays open). -/
def PgConn.exitWith (conn : PgConn) : PgConn :=
  conn.commit

/-- Python NaN-to-None normalization of
`data.replace(to_replace=[float('nan')], value=[None], inplace=True)`
(postgres.py:192). -/
def replaceNan : PyVal → PyVal
  | PyVal.nan => PyVal.none
  | v => v

/-- Embedding of `PostgresWrapper.insert_from_df` (postgres.py:166-221):
type assertions, the schema-override option handling of postgres.py:190
(which shares `_get_full_args`'s in-place append with `get_query`), NaN
normalization, statement construction, `execute_batch` inside the
connection's `with` block (whose successful exit commits the
transaction), and the trailing `if commit: conn.commit()` on the still
open connection.  Returns the updated adapter instance and the committed
database state. -/
def insert_from_df (data : DataFrame) (table_name : String) (page_size : Nat)
    (commit : Bool) (on_conflict : Option String)
    (id_cols update_cols : Option (List String)) (schema : Option String)
    (w : Wrapper) (db : PgState) : Except String (Wrapper × PgState) := do
  let _page_size := page_size
  if !(on_conflict == Option.none || on_conflict == Option.some "do_nothing"
       || on_conflict == Option.some "do_update") then
    throw "AssertionError"
  let (w2, _args) :=
    match schema with
    | Option.some _ =>
        let (ca, args) := _get_full_args w.connect_args schema
        ({ w with connect_args := ca }, args)
    | Option.none => (w, w.args)
  let rows := data.rows.map (fun r => r.map replaceNan)
  let _stmt ← insert_stmt_str data.cols table_name on_conflict id_cols update_cols
  let conn : PgConn := ⟨db, []⟩
  let conn := conn.execute_batch_insert table_name rows
  let conn := conn.exitWith
  let conn := if commit then conn.commit else conn
  pure (w2, conn.committed)

end PostgresWrapper

/-! ## Auxiliary definitions used by the theorems -/

/-- A redis server with every list empty. -/
def emptyRedis : RedisWrapper.RedisState := ⟨fun _ => []⟩

/-- Whether a subscription loop run ended in a `break`. -/
def RedisWrapper.LoopResult.isTerminated : RedisWrapper.LoopResult → Bool
  | RedisWrapper.LoopResult.terminated _ => true
  | RedisWrapper.LoopResult.running _ => false

/-- A database with every table empty. -/
def emptyPg : PostgresWrapper.PgState := ⟨fun _ => []⟩

/-- Whether the pattern occurs as a contiguous sublist. -/
def listMentions (pat : List Char) : List Char → Bool
  | [] => pat.isPrefixOf []
  | c :: rest => pat.isPrefixOf (c :: rest) || listMentions pat rest

/-- Whether `pat` occurs as a substring of `s`. -/
def strMentions (s pat : String) : Bool :=
  listMentions pat.data s.data

/-- Whether some literal part of a composed statement mentions the given
string as a substring: raw text interpolation, as opposed to an `ident`
part. -/
def litMentions (c : PostgresWrapper.Composed) (name : String) : Bool :=
  c.any (fun p =>
    match p with
    | PostgresWrapper.SqlPart.lit s => strMentions s name
    | _ => false)

/-- The statement the source actually builds for
`insert_from_df(df[["a","b"]], "t", on_conflict="do_update",
id_cols=["a"])`: the `SET` clause enumerates the characters of the
pre-joined column string `'"a", "b"'`. -/
def garbledDoUpdateStmt : String :=
  "INSERT INTO t (\x22a\x22, \x22b\x22) VALUES(%s,%s)"
    ++ " ON CONFLICT(\x22a\x22) DO UPDATE SET"
    ++ " (\x22\x22\x22, \x22a\x22, \x22\x22\x22, \x22,\x22, \x22 \x22,"
    ++ " \x22\x22\x22, \x22b\x22, \x22\x22\x22)"
    ++ " = (EXCLUDED.\x22\x22\x22, EXCLUDED.\x22a\x22, EXCLUDED.\x22\x22\x22,"
    ++ " EXCLUDED.\x22,\x22, EXCLUDED.\x22 \x22, EXCLUDED.\x22\x22\x22,"
    ++ " EXCLUDED.\x22b\x22, EXCLUDED.\x22\x22\x22)"

/-- Modelled from the spec: the statement the claim describes for the same
call — the conflict clause sets all of the row's columns to the incoming
(`EXCLUDED`) row's values, keyed by the id columns. -/
def intendedDoUpdateStmt : String :=
  "INSERT INTO t (\x22a\x22, \x22b\x22) VALUES(%s,%s)"
    ++ " ON CONFLICT(\x22a\x22) DO UPDATE SET (\x22a\x22, \x22b\x22)"
    ++ " = (EXCLUDED.\x22a\x22, EXCLUDED.\x22b\x22)"

/-! ## Claims -/

/-- C1: the claim states that `set(k, v)` followed by `get(k)` returns `v`
even when a record with identifier `k` already exists (upsert overwrites in
place).  The code contradicts this (and its own docstring, which promises
"inserts if key not exists, otherwise updates"): when the document exists,
`_upsert` calls `insert_one` instead of `update_one`, so `set` raises
`DuplicateKeyError` and the stored payload stays unchanged.  This theorem
evaluates the code at the failing input: a collection already holding
`("k", "old")`. -/
theorem C1_set_on_existing_key_raises_duplicate_key_error :
    MongoWrapper.set "k" (PyVal.str "new") [("k", PyVal.str "old")]
      = Except.error "DuplicateKeyError" ∧
    MongoWrapper.get "k" [("k", PyVal.str "old")] = Except.ok (PyVal.str "old") :=
  ⟨rfl, rfl⟩

/-- C6: the claim states that `length_of_queue` returns the current number
of elements of the queue.  The code computes `llen` but has no `return`
statement, so the call returns Python `None`: on a queue holding exactly
one element it returns `None` instead of `1`. -/
theorem C6_length_of_queue_returns_none :
    RedisWrapper.length_of_queue "jobs"
        (RedisWrapper.put_on_queue "jobs" (PyVal.dict [("id", PyVal.int 1)]) emptyRedis)
      = PyVal.none ∧
    ((RedisWrapper.put_on_queue "jobs" (PyVal.dict [("id", PyVal.int 1)])
        emptyRedis).queues "queue:jobs").length = 1 ∧
    PyVal.none ≠ PyVal.int 1 :=
  ⟨rfl, rfl, fun h => PyVal.noConfusion h⟩

/-- C7: the claim states that the document store's `exists` returns a
truthy boolean/count exactly when the key is present.  The body of
`MongoWrapper.exists` consists solely of its docstring, so the call
returns Python `None` — falsy — even for a present key, contradicting the
docstring "returns whether the supplied key exists".  Evaluated at a
collection where `"k"` is present. -/
theorem C7_exists_returns_none_even_when_key_present :
    MongoWrapper.find_one "k" [("k", PyVal.int 1)] = Option.some (PyVal.int 1) ∧
    MongoWrapper.exists_ "k" [("k", PyVal.int 1)] = PyVal.none ∧
    pyTruthy (MongoWrapper.exists_ "k" [("k", PyVal.int 1)]) = false :=
  ⟨rfl, rfl, rfl⟩

/-- C3 counterexample: the claim states that
`push("jobs", \x7b"id": 1\x7d)` followed by `pop("jobs", timeout=1)`
returns `\x7b"id": 1\x7d`.  `get_from_queue` returns the `blpop` result
verbatim: the pair `("queue:jobs", json.dumps(value))`, never the
deserialized original, so the popped value differs from the pushed one. -/
theorem C3_pop_does_not_return_pushed_value :
    (RedisWrapper.get_from_queue "jobs" 1
        (RedisWrapper.put_on_queue "jobs" (PyVal.dict [("id", PyVal.int 1)]) emptyRedis)).1
      ≠ PyVal.dict [("id", PyVal.int 1)] := by
  have h : (RedisWrapper.get_from_queue "jobs" 1
      (RedisWrapper.put_on_queue "jobs" (PyVal.dict [("id", PyVal.int 1)]) emptyRedis)).1
      = PyVal.tup [PyVal.str "queue:jobs", PyVal.str "\x7b\x22id\x22: 1\x7d"] := rfl
  rw [h]
  intro hcontra
  exact PyVal.noConfusion hcontra

/-- C3 amended: pushing a value and then popping with a positive timeout
returns the pair of the namespaced queue key and the JSON-serialized
pushed value (the raw `blpop` tuple), and a second pop on the now-empty
queue returns `None`, the not-found indicator. -/
theorem C3_pop_returns_key_and_serialized_value (queue : String) (v : PyVal) :
    (RedisWrapper.get_from_queue queue 1
        (RedisWrapper.put_on_queue queue v emptyRedis)).1
      = PyVal.tup [PyVal.str ("queue:" ++ queue), PyVal.str (dumps v)] ∧
    (RedisWrapper.get_from_queue queue 1
        (RedisWrapper.get_from_queue queue 1
          (RedisWrapper.put_on_queue queue v emptyRedis)).2).1
      = PyVal.none := by
  constructor <;>
    simp [RedisWrapper.get_from_queue, RedisWrapper.put_on_queue,
      RedisWrapper.RedisState.setQueue, emptyRedis]

/-- C4: the claim states that `insert_from_df` with
`on_conflict="do_update"` and no `update_columns` sets all of the row's
columns to the `EXCLUDED` values.  The source instead assigns the
pre-joined column *string* to `update_cols` (postgres.py:208, `update_cols
= columns` where `columns = '"a", "b"'`), so the conflict clause
enumerates the characters of that string.  The first conjunct evaluates
the built statement at the failing input; the second shows it differs from
the statement the claim describes. -/
theorem C4_do_update_default_update_cols_enumerates_characters :
    PostgresWrapper.insert_stmt_str ["a", "b"] "t" (Option.some "do_update")
        (Option.some ["a"]) Option.none
      = Except.ok garbledDoUpdateStmt ∧
    PostgresWrapper.insert_stmt_str ["a", "b"] "t" (Option.some "do_update")
        (Option.some ["a"]) Option.none
      ≠ Except.ok intendedDoUpdateStmt := by
  refine ⟨rfl, fun h => ?_⟩
  have h1 : (Except.ok garbledDoUpdateStmt : Except String String)
      = Except.ok intendedDoUpdateStmt := h
  injection h1 with h2
  exact absurd h2 (by decide)

/-- C10: calling `get_query` with a schema override passes the instance's
shared `connect_args` list to `_get_full_args`, which appends the
`-c search_path=...` option to it in place; a second schema-overridden
call therefore appends a duplicate entry instead of rebuilding the option
list. -/
theorem C10_get_query_schema_override_mutates_connect_args
    (w : PostgresWrapper.Wrapper) (s : String) :
    (PostgresWrapper.get_query_options w (Option.some s)).1.connect_args
      = w.connect_args ++ ["-c search_path=" ++ s] ∧
    (PostgresWrapper.get_query_options
        (PostgresWrapper.get_query_options w (Option.some s)).1
        (Option.some s)).1.connect_args
      = w.connect_args ++ ["-c search_path=" ++ s, "-c search_path=" ++ s] := by
  constructor <;>
    simp [PostgresWrapper.get_query_options, PostgresWrapper._get_full_args]

/-- Helper: with no timeout, idle iterations (message `None`) only advance
the iteration counter. -/
theorem subscriptionLoop_replicate_none (cb : PyVal → Bool) (el : Nat → Nat)
    (tr : List (Option PyVal)) :
    ∀ (k i calls : Nat),
      RedisWrapper.subscriptionLoop cb Option.none el
        (List.replicate k Option.none ++ tr) i calls
      = RedisWrapper.subscriptionLoop cb Option.none el tr (i + k) calls := by
  intro k
  induction k with
  | zero => intro i calls; simp
  | succ n ih =>
      intro i calls
      rw [List.replicate_succ, List.cons_append]
      simp only [RedisWrapper.subscriptionLoop,
        RedisWrapper.subscriptionLoop.afterMessage]
      rw [ih (i + 1) calls]
      rw [show i + 1 + n = i + (n + 1) from by omega]

/-- Helper: with a timeout set, the loop never survives an iteration whose
elapsed seconds exceed the timeout: if some iteration of the observed
trace elapses past the timeout, the loop ends in a `break`. -/
theorem subscriptionLoop_timeout_isTerminated (cb : PyVal → Bool) (el : Nat → Nat)
    (t : Nat) :
    ∀ (trace : List (Option PyVal)) (i calls : Nat),
      (∃ j, j < trace.length ∧ el (i + j) > t) →
      (RedisWrapper.subscriptionLoop cb (Option.some t) el trace i calls).isTerminated
        = true := by
  intro trace
  induction trace with
  | nil =>
      intro i calls h
      obtain ⟨j, hj, _⟩ := h
      simp at hj
  | cons hd rest ih =>
      intro i calls h
      obtain ⟨j, hj, hel⟩ := h
      have haux : ∀ calls',
          (RedisWrapper.subscriptionLoop.afterMessage cb (Option.some t) el
            rest i calls').isTerminated = true := by
        intro calls'
        simp only [RedisWrapper.subscriptionLoop.afterMessage]
        by_cases hgt : el i > t
        · simp [hgt, RedisWrapper.LoopResult.isTerminated]
        · have hj0 : j ≠ 0 := by
            rintro rfl
            exact hgt (by simpa using hel)
          have hel1 : el (i + 1 + (j - 1)) > t := by
            have heq : i + 1 + (j - 1) = i + j := by omega
            rw [heq]; exact hel
          have hlt : j - 1 < rest.length := by
            simp only [List.length_cons] at hj
            omega
          have := ih (i + 1) calls' ⟨j - 1, hlt, hel1⟩
          simpa [hgt] using this
      cases hd with
      | none =>
          simp only [RedisWrapper.subscriptionLoop]
          exact haux calls
      | some m =>
          simp only [RedisWrapper.subscriptionLoop]
          cases hcb : cb m with
          | true => simpa [hcb] using haux (calls + 1)
          | false => simp [hcb, RedisWrapper.LoopResult.isTerminated]

/-- C9: (a) with no timeout, a callback that returns `False` on the first
delivered message terminates the loop with exactly one callback
invocation, regardless of how many idle polls precede the message; (b)
with a timeout set, the loop ends in a `break` as soon as some iteration's
elapsed wall-clock seconds exceed the timeout, regardless of the
callback's continuation signal. -/
theorem C9_subscription_loop_termination (cb : PyVal → Bool) (m : PyVal)
    (k : Nat) (rest : List (Option PyVal)) (el : Nat → Nat) (t : Nat)
    (trace : List (Option PyVal)) (i calls : Nat) :
    (cb m = false →
      RedisWrapper.subscriptionLoop cb Option.none el
          (List.replicate k Option.none ++ Option.some m :: rest) 0 0
        = RedisWrapper.LoopResult.terminated 1) ∧
    ((∃ j, j < trace.length ∧ el (i + j) > t) →
      (RedisWrapper.subscriptionLoop cb (Option.some t) el trace i calls).isTerminated
        = true) := by
  constructor
  · intro hcb
    rw [subscriptionLoop_replicate_none]
    simp only [RedisWrapper.subscriptionLoop]
    simp [hcb]
  · exact subscriptionLoop_timeout_isTerminated cb el t trace i calls

/-- Witness for C9: a callback that returns `False` at once, receiving the
message `"ping"` on the first poll, stops after exactly one invocation;
and an idle loop whose first iteration already elapses 2 seconds against a
1-second timeout ends in a `break`. -/
theorem C9_witness :
    RedisWrapper.subscriptionLoop (fun _ => false) Option.none (fun _ => 2)
        (List.replicate 0 Option.none ++ Option.some (PyVal.str "ping") :: []) 0 0
      = RedisWrapper.LoopResult.terminated 1 ∧
    (RedisWrapper.subscriptionLoop (fun _ => false) (Option.some 1) (fun _ => 2)
        [Option.none] 0 0).isTerminated = true :=
  ⟨(C9_subscription_loop_termination (fun _ => false) (PyVal.str "ping") 0 []
      (fun _ => 2) 1 [Option.none] 0 0).1 rfl,
   (C9_subscription_loop_termination (fun _ => false) (PyVal.str "ping") 0 []
      (fun _ => 2) 1 [Option.none] 0 0).2 ⟨0, by decide, by decide⟩⟩

/-- C8: `insert_from_df` with `on_conflict="do_update"` and `id_cols=None`
fails while the statement text is still being built — `', '.join(...)`
iterates `None` and raises `TypeError` — before `psycopg2.connect` is
reached, for every dataframe, flag combination and database state, so the
database is never touched. -/
theorem C8_do_update_without_id_cols_fails_before_any_network_call
    (data : PostgresWrapper.DataFrame) (table_name : String) (page_size : Nat)
    (commit : Bool) (update_cols : Option (List String)) (schema : Option String)
    (w : PostgresWrapper.Wrapper) (db : PostgresWrapper.PgState) :
    PostgresWrapper.insert_from_df data table_name page_size commit
        (Option.some "do_update") Option.none update_cols schema w db
      = Except.error "TypeError" := by
  cases schema <;> cases update_cols <;>
    simp [PostgresWrapper.insert_from_df, PostgresWrapper.insert_stmt_str,
      Bind.bind, Except.bind, pure, Except.pure, throw, throwThe,
      MonadExceptOf.throw]

/-- Helper: appending no rows leaves the database unchanged. -/
theorem insertRows_nil (db : PostgresWrapper.PgState) (tn : String) :
    db.insertRows tn [] = db := by
  cases db with
  | mk f =>
      simp only [PostgresWrapper.PgState.insertRows, List.append_nil,
        PostgresWrapper.PgState.mk.injEq]
      funext u
      split <;> rfl

/-- Helper: row appends to the same table compose. -/
theorem insertRows_append (db : PostgresWrapper.PgState) (tn : String)
    (xs ys : List (List PyVal)) :
    (db.insertRows tn xs).insertRows tn ys = db.insertRows tn (xs ++ ys) := by
  cases db with
  | mk f =>
      simp only [PostgresWrapper.PgState.insertRows,
        PostgresWrapper.PgState.mk.injEq]
      funext u
      by_cases h : (u == tn) = true <;> simp [h]

/-- Helper: committing a pending batch of single-table row writes appends
exactly those rows to that table. -/
theorem foldl_insertRows (tn : String) :
    ∀ (rows : List (List PyVal)) (db : PostgresWrapper.PgState),
      (rows.map (fun r => (tn, r))).foldl
          (fun acc tr => acc.insertRows tr.1 [tr.2]) db
        = db.insertRows tn rows := by
  intro rows
  induction rows with
  | nil => intro db; simpa using (insertRows_nil db tn).symm
  | cons r rs ih =>
      intro db
      simp only [List.map_cons, List.foldl_cons]
      rw [ih (db.insertRows tn [r]), insertRows_append]
      rfl

/-- C5 counterexample: the claim states that with `commit=false` the bulk
insert is rolled back when the connection closes, leaving the table
unchanged.  Running `insert_from_df` with `commit=false` on an empty
database nevertheless leaves the row committed, because the psycopg2
connection context manager commits the transaction when the `with` block
exits without an exception. -/
theorem C5_insert_with_commit_false_changes_table :
    (PostgresWrapper.insert_from_df (PostgresWrapper.DataFrame.mk ["a"] [[PyVal.int 1]])
        "t" 1000 false Option.none Option.none Option.none Option.none
        (PostgresWrapper.init Option.none Option.none) emptyPg).map
        (fun r => r.2.tables "t")
      = Except.ok [[PyVal.int 1]] ∧
    emptyPg.tables "t" = [] :=
  ⟨rfl, rfl⟩

/-- C5 amended: `insert_from_df` persists the batch regardless of the
`commit` flag — exiting the psycopg2 connection context manager commits
the implicit transaction, so `commit=false` does not leave a write that is
rolled back on close, and the explicit `conn.commit()` under `commit=true`
is redundant.  For every dataframe, table, flag value and starting state
(plain-insert path), the resulting database is the starting one with the
NaN-normalized rows appended to the target table. -/
theorem C5_insert_from_df_commits_regardless_of_flag
    (data : PostgresWrapper.DataFrame) (table_name : String) (page_size : Nat)
    (commit : Bool) (schema : Option String) (w : PostgresWrapper.Wrapper)
    (db : PostgresWrapper.PgState) :
    (PostgresWrapper.insert_from_df data table_name page_size commit
        Option.none Option.none Option.none schema w db).map (fun r => r.2)
      = Except.ok
          (db.insertRows table_name
            (data.rows.map (fun r => r.map PostgresWrapper.replaceNan))) := by
  cases schema <;> cases commit <;>
    · simp [PostgresWrapper.insert_from_df, PostgresWrapper.insert_stmt_str,
        PostgresWrapper.PgConn.exitWith, PostgresWrapper.PgConn.commit,
        PostgresWrapper.PgConn.execute_batch_insert,
        Bind.bind, Except.bind, pure, Except.pure, Except.map]
      rw [← List.map_map, foldl_insertRows]

/-- C2 counterexample: the claim states that in every statement the
adapter builds, table and column identifiers are rendered via
parameterized identifier quoting and never string-interpolated.  The query
`get_column_names` builds for table `"users"` contains no
`sql.Identifier` part at all: the table name is interpolated into the
literal query text by Python string formatting. -/
theorem C2_get_column_names_interpolates_table_name :
    ((PostgresWrapper.get_column_names_query "users").any
        (fun p => p == PostgresWrapper.SqlPart.ident "users")) = false ∧
    litMentions (PostgresWrapper.get_column_names_query "users") "users" = true :=
  ⟨rfl, rfl⟩

/-- C2 amended: in the statements built by `get_table` the table name, the
selected column names and the filtered column name are rendered as
`sql.Identifier` parts and the filter value is passed through the bound
`values` list behind a `Placeholder` (shown for an arbitrary table, plain
column list and a single equality filter); by contrast `get_column_names`
interpolates the table name directly into the literal query text, and
`insert_from_df` interpolates the table name and hand-quoted column names
into the plain statement string, with only the row values bound as `%s`
parameters. -/
theorem C2_identifier_quoting_holds_only_in_get_table
    (t w : String) (cols : List String) (v : PyVal) :
    PostgresWrapper.get_table_stmt t (Option.some (PostgresWrapper.Columns.plain cols))
        (Option.some [⟨w, "=", v⟩]) Option.none Option.none Option.none
      = Except.ok
          (PostgresWrapper.SqlPart.lit "SELECT "
            :: PostgresWrapper.sqlJoin ","
                (cols.map (fun c => [PostgresWrapper.SqlPart.ident c]))
            ++ [PostgresWrapper.SqlPart.lit " FROM ", PostgresWrapper.SqlPart.ident t,
                PostgresWrapper.SqlPart.lit " WHERE ", PostgresWrapper.SqlPart.ident w,
                PostgresWrapper.SqlPart.lit " = ", PostgresWrapper.SqlPart.placeholder,
                PostgresWrapper.SqlPart.lit ";"],
           Option.some [v]) ∧
    PostgresWrapper.get_column_names_query "users"
      = [PostgresWrapper.SqlPart.lit "SELECT * from users LIMIT 1;"] ∧
    PostgresWrapper.insert_stmt_str ["a"] "users" Option.none Option.none Option.none
      = Except.ok "INSERT INTO users (\x22a\x22) VALUES(%s)" :=
  ⟨rfl, rfl, rfl⟩
